import Mathlib

/-!
Verification development for the client-side workflow core of the
ai_writer_PRO frontend: the query-key factory and mutation invalidation
handlers (hooks/api), the query-client retry policy (Providers), the
auth/session store (store/auth.ts), the content-generation form with its
zod schema, and the list-query search-parameter construction.

Each definition is a shallow embedding of the corresponding source
function; definitions whose source lives in a third-party library or in a
module absent from the surveyed slice are marked `Modelled from the spec:`
in their doc comment.
-/

namespace AiWriter

/-- A cache-key segment: the key factory produces string segments; list
queries additionally append the search-params object as a final segment. -/
inductive Seg where
  | s (v : String)
  | params (ps : List (String × String))
deriving DecidableEq, Repr

/-- A cache key is the array of segments used by the data-fetching layer. -/
abbrev Key := List Seg

/-- Partial (left-to-right) key matching: `keyMatches k k2` holds when `k`
is a leading portion of `k2`.  This is the matching mode the data-fetching
library applies when an invalidation target is given as a key. -/
def keyMatches : Key → Key → Bool
  | [], _ => true
  | _ :: _, [] => false
  | a :: as, b :: bs => decide (a = b) && keyMatches as bs

/-- `strictlyExtends long short` : `short` is a proper leading portion of
`long` (matches it and is strictly shorter). -/
def strictlyExtends (long short : Key) : Bool :=
  keyMatches short long && decide (short.length < long.length)

/-- A key carries an organization id when its first segment is the literal
string segment for organizations and a second (id) segment follows. -/
def keyCarriesOrgId : Key → Bool
  | Seg.s a :: _ :: _ => decide (a = "organizations")
  | _ => false

/-- A key is scoped to organization `orgId` when it starts with the
organizations segment followed by that id. -/
def keyScopedTo : Key → String → Bool
  | Seg.s a :: Seg.s o :: _, orgId => decide (a = "organizations") && decide (o = orgId)
  | _, _ => false

namespace QueryKeys

/-- queryKeys.user.profile from the hooks module. -/
def userProfile : Key := [ Seg.s "user", Seg.s "profile" ]

/-- queryKeys.organization.list. -/
def organizationList : Key := [ Seg.s "organizations" ]

/-- queryKeys.organization.detail(id). -/
def organizationDetail (id : String) : Key := [ Seg.s "organizations", Seg.s id ]

/-- queryKeys.organization.members(id). -/
def organizationMembers (id : String) : Key :=
  [ Seg.s "organizations", Seg.s id, Seg.s "members" ]

/-- queryKeys.organization.usage(id). -/
def organizationUsage (id : String) : Key :=
  [ Seg.s "organizations", Seg.s id, Seg.s "usage" ]

/-- queryKeys.style.list(orgId). -/
def styleList (orgId : String) : Key :=
  [ Seg.s "organizations", Seg.s orgId, Seg.s "styles" ]

/-- queryKeys.style.detail(orgId, id). -/
def styleDetail (orgId id : String) : Key :=
  [ Seg.s "organizations", Seg.s orgId, Seg.s "styles", Seg.s id ]

/-- queryKeys.style.analysis(orgId, id). -/
def styleAnalysis (orgId id : String) : Key :=
  [ Seg.s "organizations", Seg.s orgId, Seg.s "styles", Seg.s id, Seg.s "analysis" ]

/-- queryKeys.content.list(orgId). -/
def contentList (orgId : String) : Key :=
  [ Seg.s "organizations", Seg.s orgId, Seg.s "content" ]

/-- queryKeys.content.detail(orgId, id). -/
def contentDetail (orgId id : String) : Key :=
  [ Seg.s "organizations", Seg.s orgId, Seg.s "content", Seg.s id ]

/-- queryKeys.content.iterations(orgId, id). -/
def contentIterations (orgId id : String) : Key :=
  [ Seg.s "organizations", Seg.s orgId, Seg.s "content", Seg.s id, Seg.s "iterations" ]

end QueryKeys

/-- One cached query result: its key and whether it is still fresh
(not yet marked stale). -/
structure Entry where
  key : Key
  fresh : Bool
deriving DecidableEq, Repr

/-- The keyed query cache. -/
abbrev Cache := List Entry

/-- Reading the cache for a key is an exact-key lookup: the library hashes
the full key and a query is identified by it. -/
def lookup (c : Cache) (k : Key) : Option Entry :=
  c.find? (fun e => decide (e.key = k))

/-- Modelled from the spec: queryClient.invalidateQueries of the
data-fetching library (not part of the surveyed slice) marks every cached
entry whose key extends the given target key as stale; the spec's key
factory invariant notes that prefix-based invalidation relies on this. -/
def invalidateQueries (k : Key) (c : Cache) : Cache :=
  c.map (fun e => if keyMatches k e.key then { e with fresh := false } else e)

/-- Modelled from the spec: queryClient.removeQueries removes every cached
entry whose key extends the given target key outright (the delete-content
row of the invalidation table: removed outright, not merely marked stale). -/
def removeQueries (k : Key) (c : Cache) : Cache :=
  c.filter (fun e => ! keyMatches k e.key)

/-- onSuccess handler of useCreateStyle: invalidates the style list key of
the organization. -/
def createStyleOnSuccess (organizationId : String) (c : Cache) : Cache :=
  invalidateQueries (QueryKeys.styleList organizationId) c

/-- onSuccess handler of useUpdateStyle: invalidates the style list key and
then the style detail key. -/
def updateStyleOnSuccess (organizationId styleId : String) (c : Cache) : Cache :=
  invalidateQueries (QueryKeys.styleDetail organizationId styleId)
    (invalidateQueries (QueryKeys.styleList organizationId) c)

/-- onSuccess handler of useDeleteStyle: invalidates the style list key and
then removes the style detail key. -/
def deleteStyleOnSuccess (organizationId styleId : String) (c : Cache) : Cache :=
  removeQueries (QueryKeys.styleDetail organizationId styleId)
    (invalidateQueries (QueryKeys.styleList organizationId) c)

/-- onSuccess handler of useGenerateContent: invalidates the content list
key and then the organization usage key. -/
def generateContentOnSuccess (organizationId : String) (c : Cache) : Cache :=
  invalidateQueries (QueryKeys.organizationUsage organizationId)
    (invalidateQueries (QueryKeys.contentList organizationId) c)

/-- onSuccess handler of useEditContent: invalidates the content detail
key, the content iterations key and the organization usage key. -/
def editContentOnSuccess (organizationId contentId : String) (c : Cache) : Cache :=
  invalidateQueries (QueryKeys.organizationUsage organizationId)
    (invalidateQueries (QueryKeys.contentIterations organizationId contentId)
      (invalidateQueries (QueryKeys.contentDetail organizationId contentId) c))

/-- onSuccess handler of useDeleteContent: invalidates the content list key
and then removes the content detail key. -/
def deleteContentOnSuccess (organizationId contentId : String) (c : Cache) : Cache :=
  removeQueries (QueryKeys.contentDetail organizationId contentId)
    (invalidateQueries (QueryKeys.contentList organizationId) c)

/-- Cached copy of the authenticated user (identity attributes that matter
to the session store). -/
structure User where
  id : String
  email : String
deriving DecidableEq, Repr

/-- Cached copy of the active organization. -/
structure Organization where
  id : String
  name : String
deriving DecidableEq, Repr

/-- The client-held state relevant to the session claims: the zustand auth
store fields (user, organization, isAuthenticated, isLoading, error), the
persisted credentials managed by the auth service, and the keyed entity
cache of the data-fetching layer. -/
structure ClientState where
  user : Option User
  organization : Option Organization
  isAuthenticated : Bool
  isLoading : Bool
  error : Option String
  persistedToken : Option String
  persistedOrganization : Option Organization
  cache : Cache
deriving Repr

/-- Successful response of authService.login: user, organization and token. -/
structure LoginResponse where
  user : User
  organization : Organization
  token : String
deriving Repr

/-- login action of the auth store: sets loading and clears the error, then
on success stores user, organization and authenticated flag (the token is
persisted by the auth service per the spec: on success, stores user +
organization + token); on failure only loading and error change and the
error is rethrown to the caller. -/
def login (result : Except String LoginResponse) (s : ClientState) : ClientState :=
  match result with
  | Except.ok r =>
      { s with
        user := some r.user
        organization := some r.organization
        isAuthenticated := true
        isLoading := false
        error := none
        persistedToken := some r.token }
  | Except.error msg =>
      { s with isLoading := false, error := some msg }

/-- logout action of the auth store: a best-effort server call whose
outcome is `serverOk`, then a finally block that clears the store session
fields; the persisted credentials are cleared by the auth service
(Modelled from the spec: authService.logout lives in a module absent from
the slice; the spec says the server-side invalidation is best-effort and
local session state is cleared regardless).  The entity cache is not
touched by any logout code path. -/
def logout (serverOk : Bool) (s : ClientState) : ClientState :=
  let _ := serverOk
  { s with
    user := none
    organization := none
    isAuthenticated := false
    isLoading := false
    error := none
    persistedToken := none
    persistedOrganization := none }

/-- setOrganization action of the auth store: stores the organization in
the store and persists it via authService.setOrganizationData (Modelled
from the spec for the absent auth-service module: persistence of the
active organization).  No cache operation is performed. -/
def setOrganization (org : Organization) (s : ClientState) : ClientState :=
  { s with organization := some org, persistedOrganization := some org }

/-- The observable auth-service environment read by the initialize action:
whether a token is persisted, whether it is expired, the outcome of the
getCurrentUser network fetch (`none` models a thrown error), and the
persisted organization data. -/
structure AuthService where
  hasToken : Bool
  tokenExpired : Bool
  fetchCurrentUser : Option User
  storedOrganization : Option Organization
deriving Repr

/-- The cleared session state produced by authService.clearAuthData plus
the store reset: every session field null, authenticated and loading
false, persisted credentials gone.  The entity cache is untouched. -/
def clearedSession (s : ClientState) : ClientState :=
  { s with
    user := none
    organization := none
    isAuthenticated := false
    isLoading := false
    error := none
    persistedToken := none
    persistedOrganization := none }

/-- initialize action of the auth store (named initializeSession here):
when a token is present and unexpired it awaits the getCurrentUser network
fetch and on its success stores the user, the persisted organization and
the authenticated flag; a fetch failure, like an absent or expired token,
clears all session state.  The second component reports whether a network
fetch was issued. -/
def initializeSession (svc : AuthService) (s : ClientState) : ClientState × Bool :=
  if svc.hasToken && ! svc.tokenExpired then
    match svc.fetchCurrentUser with
    | some u =>
        ({ s with
           user := some u
           organization := svc.storedOrganization
           isAuthenticated := true
           isLoading := false
           error := none }, true)
    | none => (clearedSession s, true)
  else
    (clearedSession s, false)

/-- Test for a 4xx-class response status, as written in the retry callbacks
of the query-client configuration (an error without a status never passes
the check). -/
def is4xx : Option Nat → Bool
  | some st => decide (400 ≤ st) && decide (st < 500)
  | none => false

/-- Retry callback of defaultOptions.queries in the query-client
configuration: never retry a 4xx-class error, otherwise retry while the
failure count is below 3. -/
def queryRetry (failureCount : Nat) (status : Option Nat) : Bool :=
  if is4xx status then false else decide (failureCount < 3)

/-- Retry callback of defaultOptions.mutations in the query-client
configuration: never retry a 4xx-class error, otherwise retry while the
failure count is below 2. -/
def mutationRetry (failureCount : Nat) (status : Option Nat) : Bool :=
  if is4xx status then false else decide (failureCount < 2)

/-- Outcome of one request attempt: success, or a failure carrying an
optional response status. -/
inductive AttemptOutcome where
  | success
  | failure (status : Option Nat)
deriving DecidableEq, Repr

/-- Modelled from the spec: the retry executor of the data-fetching library
(not part of the surveyed slice) runs attempts in sequence and, after each
failed attempt, consults the retry callback with the number of failures
recorded so far; per the spec's observed policy this accounting yields up
to 3 attempts for reads and up to 2 for mutations.  `priorFailures` is the
failure count before the next attempt; the outcome list supplies the result
of each attempt the executor would run. -/
def attemptsMade (retryFn : Nat → Option Nat → Bool) :
    Nat → List AttemptOutcome → Nat
  | _, [] => 0
  | _, AttemptOutcome.success :: _ => 1
  | priorFailures, AttemptOutcome.failure st :: rest =>
      1 + (if retryFn (priorFailures + 1) st then
             attemptsMade retryFn (priorFailures + 1) rest
           else 0)

/-- Total number of attempts the executor makes for a fresh request. -/
def totalAttempts (retryFn : Nat → Option Nat → Bool)
    (outcomes : List AttemptOutcome) : Nat :=
  attemptsMade retryFn 0 outcomes

/-- The content-generation form data validated by contentGenerationSchema
(zod): brief, style id, optional numeric parameters (modelled over the
rationals for exact comparison) and optional extra instructions. -/
structure ContentGenerationFormData where
  brief : String
  style_profile_id : String
  max_tokens : Option Rat
  temperature : Option Rat
  additional_instructions : Option String
deriving Repr

/-- contentGenerationSchema from the validation-schemas module: brief at
least 10 characters, style id at least 1 character, max_tokens optional in
[100, 4000], temperature optional in [0, 2], additional instructions
unconstrained. -/
def contentGenerationValid (d : ContentGenerationFormData) : Bool :=
  decide (10 ≤ d.brief.length) &&
  decide (1 ≤ d.style_profile_id.length) &&
  (match d.max_tokens with
   | none => true
   | some v => decide ((100 : Rat) ≤ v) && decide (v ≤ (4000 : Rat))) &&
  (match d.temperature with
   | none => true
   | some v => decide ((0 : Rat) ≤ v) && decide (v ≤ (2 : Rat)))

/-- Modelled from the spec: the form library's handleSubmit wrapper used by
ContentGenerationForm (the library is not part of the slice) runs the zod
resolver first and invokes the submit callback, which issues the single
network request, only when validation passes; validation errors are local
and never reach the network.  The result is the issued request, or `none`
when zero network calls are made. -/
def submitGeneration (d : ContentGenerationFormData) :
    Option ContentGenerationFormData :=
  if contentGenerationValid d then some d else none

/-- Sort order union type of the typed search params. -/
inductive SortOrder where
  | asc
  | desc
deriving DecidableEq, Repr

/-- JS stringification of a sort order. -/
def SortOrder.toStr : SortOrder → String
  | SortOrder.asc => "asc"
  | SortOrder.desc => "desc"

/-- Typed StyleSearchParams: the base SearchParams fields plus the style
filters; every field is optional. -/
structure StyleSearchParams where
  query : Option String
  page : Option Nat
  per_page : Option Nat
  sort_by : Option String
  sort_order : Option SortOrder
  is_active : Option Bool
  created_by : Option String
deriving Repr

/-- Typed ContentSearchParams: the base SearchParams fields plus the
content filters; every field is optional. -/
structure ContentSearchParams where
  query : Option String
  page : Option Nat
  per_page : Option Nat
  sort_by : Option String
  sort_order : Option SortOrder
  status : Option String
  style_profile_id : Option String
  date_from : Option String
  date_to : Option String
deriving Repr

/-- JS stringification of a boolean. -/
def boolStr (b : Bool) : String := if b then "true" else "false"

/-- The Object.entries view of a StyleSearchParams value: each field name
with its stringified value when the field is defined. -/
def styleSearchEntries (p : StyleSearchParams) : List (String × Option String) :=
  [ ( "query", p.query ),
    ( "page", p.page.map toString ),
    ( "per_page", p.per_page.map toString ),
    ( "sort_by", p.sort_by ),
    ( "sort_order", p.sort_order.map SortOrder.toStr ),
    ( "is_active", p.is_active.map boolStr ),
    ( "created_by", p.created_by ) ]

/-- The Object.entries view of a ContentSearchParams value. -/
def contentSearchEntries (p : ContentSearchParams) : List (String × Option String) :=
  [ ( "query", p.query ),
    ( "page", p.page.map toString ),
    ( "per_page", p.per_page.map toString ),
    ( "sort_by", p.sort_by ),
    ( "sort_order", p.sort_order.map SortOrder.toStr ),
    ( "status", p.status ),
    ( "style_profile_id", p.style_profile_id ),
    ( "date_from", p.date_from ),
    ( "date_to", p.date_to ) ]

/-- The query-string construction shared by useStyles and useContent: for
each entry, append the pair when the value is neither undefined (here:
`none`, which also covers null) nor the empty string. -/
def buildQueryParams (entries : List (String × Option String)) :
    List (String × String) :=
  entries.filterMap (fun kv =>
    match kv.2 with
    | none => none
    | some v => if v = "" then none else some (kv.1, v))

/-- Concrete organization used in counterexamples and witnesses. -/
def org1 : Organization := { id := "o1", name := "Org One" }

/-- A second, distinct concrete organization. -/
def org2 : Organization := { id := "o2", name := "Org Two" }

/-- Concrete user used in counterexamples and witnesses. -/
def user1 : User := { id := "u1", email := "u1@example.com" }

/-- A fully authenticated client state over a given cache, used to evaluate
the session operations on concrete inputs. -/
def stateWithCache (c : Cache) : ClientState :=
  { user := some user1
    organization := some org1
    isAuthenticated := true
    isLoading := false
    error := none
    persistedToken := some "tok"
    persistedOrganization := some org1
    cache := c }

/-- Auth-service environment with a valid persisted token whose
getCurrentUser fetch fails. -/
def svcValidTokenFetchFails : AuthService :=
  { hasToken := true
    tokenExpired := false
    fetchCurrentUser := none
    storedOrganization := some org1 }

theorem lookup_eq_key {c : Cache} {k : Key} {e : Entry}
    (h : lookup c k = some e) : e.key = k := by
  unfold lookup at h
  have hp := List.find?_some h
  exact of_decide_eq_true hp

theorem keyScopedTo_unique {k : Key} {o1 o2 : String}
    (h1 : keyScopedTo k o1 = true) (h2 : keyScopedTo k o2 = true) : o1 = o2 := by
  cases k with
  | nil => simp [keyScopedTo] at h1
  | cons a t =>
    cases a with
    | params ps => simp [keyScopedTo] at h1
    | s v =>
      cases t with
      | nil => simp [keyScopedTo] at h1
      | cons b t2 =>
        cases b with
        | params ps => simp [keyScopedTo] at h1
        | s w =>
          simp [keyScopedTo] at h1 h2
          exact h1.2.symm.trans h2.2

theorem invalidateQueries_invalidateQueries (k1 k2 : Key) (c : Cache) :
    invalidateQueries k2 (invalidateQueries k1 c) =
      c.map (fun e =>
        if keyMatches k1 e.key || keyMatches k2 e.key then
          { e with fresh := false } else e) := by
  induction c with
  | nil => rfl
  | cons e t ih =>
    simp only [invalidateQueries, List.map_cons] at ih ⊢
    cases h1 : keyMatches k1 e.key <;> cases h2 : keyMatches k2 e.key <;>
      simp [h1, h2, ih]

theorem removeQueries_invalidateQueries (k1 k2 : Key) (c : Cache) :
    removeQueries k2 (invalidateQueries k1 c) =
      (c.filter (fun e => ! keyMatches k2 e.key)).map
        (fun e => if keyMatches k1 e.key then { e with fresh := false } else e) := by
  induction c with
  | nil => rfl
  | cons e t ih =>
    simp only [invalidateQueries, removeQueries, List.map_cons, List.filter] at ih ⊢
    cases h1 : keyMatches k1 e.key <;> cases h2 : keyMatches k2 e.key <;>
      simp [h1, h2, ih]

theorem attemptsMade_le {retryFn : Nat → Option Nat → Bool} {n : Nat}
    (hb : ∀ fc st, retryFn fc st = true → fc < n) :
    ∀ (l : List AttemptOutcome) (f : Nat), f < n → attemptsMade retryFn f l ≤ n - f := by
  intro l
  induction l with
  | nil => intro f hf; simp [attemptsMade]
  | cons o rest ih =>
    intro f hf
    cases o with
    | success => simp [attemptsMade]; omega
    | failure st =>
      simp only [attemptsMade]
      cases hr : retryFn (f + 1) st
      · simp; omega
      · have hlt := hb _ _ hr
        have hrec := ih (f + 1) hlt
        simp; omega

theorem mem_buildQueryParams (entries : List (String × Option String)) (k v : String) :
    (k, v) ∈ buildQueryParams entries ↔ ((k, some v) ∈ entries ∧ v ≠ "") := by
  unfold buildQueryParams
  rw [List.mem_filterMap]
  constructor
  · rintro ⟨⟨k', ov⟩, hin, hf⟩
    cases ov with
    | none => simp at hf
    | some w =>
      by_cases hw : w = ""
      · simp [hw] at hf
      · simp [hw] at hf
        obtain ⟨rfl, rfl⟩ := hf
        exact ⟨hin, hw⟩
  · rintro ⟨hin, hv⟩
    exact ⟨(k, some v), hin, by simp [hv]⟩

/-- C1 counterexample: switching the active organization from org1 to org2
leaves an organization-scoped cache entry for org1 present and fresh — the
claimed invalidation of every previous-organization entry does not happen. -/
theorem setOrganization_no_invalidation_cex :
    org1.id ≠ org2.id ∧
    keyScopedTo (QueryKeys.styleList "o1") org1.id = true ∧
    lookup (setOrganization org2
        (stateWithCache [ { key := QueryKeys.styleList "o1", fresh := true } ])).cache
      (QueryKeys.styleList "o1") =
      some { key := QueryKeys.styleList "o1", fresh := true } := by
  refine ⟨by decide, by decide, by rfl⟩

/-- C1 (amended): setOrganization switches and persists the active
organization without touching the cache; nevertheless, for distinct
organizations, reading a key scoped to the new organization never returns
an entry whose key was scoped to the previous one, because every
organization-scoped key embeds its organization id and reads are
exact-key lookups. -/
theorem setOrganization_spec :
    (∀ (org : Organization) (s : ClientState),
        (setOrganization org s).organization = some org ∧
        (setOrganization org s).persistedOrganization = some org ∧
        (setOrganization org s).cache = s.cache) ∧
    (∀ (c : Cache) (o1 o2 : String) (k : Key) (e : Entry),
        o1 ≠ o2 → keyScopedTo k o2 = true → lookup c k = some e →
        keyScopedTo e.key o1 = false) := by
  constructor
  · intro org s
    exact ⟨rfl, rfl, rfl⟩
  · intro c o1 o2 k e hne hscope hlook
    have hk := lookup_eq_key hlook
    subst hk
    cases hcontra : keyScopedTo e.key o1
    · rfl
    · exact absurd (keyScopedTo_unique hcontra hscope) hne

/-- C1 witness: the cross-tenant part of setOrganization_spec applied at a
concrete cache, pair of distinct organizations and key. -/
theorem setOrganization_spec_witness :
    ("o1" : String) ≠ "o2" ∧
    keyScopedTo (QueryKeys.styleList "o2") "o2" = true ∧
    keyScopedTo (QueryKeys.styleList "o2") "o1" = false :=
  ⟨by decide, by decide,
    setOrganization_spec.2 [ { key := QueryKeys.styleList "o2", fresh := true } ]
      "o1" "o2" (QueryKeys.styleList "o2")
      { key := QueryKeys.styleList "o2", fresh := true }
      (by decide) (by decide) (by rfl)⟩

/-- C2 counterexample: with a present, unexpired token the initialize
action issues the getCurrentUser network fetch, and when that fetch fails
it ends anonymous — it does not optimistically mark the session
authenticated independently of the network. -/
theorem initializeSession_cex :
    svcValidTokenFetchFails.hasToken = true ∧
    svcValidTokenFetchFails.tokenExpired = false ∧
    (initializeSession svcValidTokenFetchFails (stateWithCache [])).2 = true ∧
    (initializeSession svcValidTokenFetchFails (stateWithCache [])).1.isAuthenticated = false := by
  refine ⟨rfl, rfl, rfl, rfl⟩

/-- C2 (amended): initialize reaches a terminal state as follows — with a
present, unexpired token it issues the user fetch and is authenticated
exactly when that fetch succeeds (storing the fetched user and the
persisted organization); with an absent or expired token, or a failed
fetch, it clears all session state; no network call is issued in the
absent/expired case. -/
theorem initializeSession_spec (svc : AuthService) (s : ClientState) :
    (initializeSession svc s).2 = (svc.hasToken && ! svc.tokenExpired) ∧
    (initializeSession svc s).1.isAuthenticated =
      ((svc.hasToken && ! svc.tokenExpired) && svc.fetchCurrentUser.isSome) ∧
    (initializeSession svc s).1.user =
      (if svc.hasToken && ! svc.tokenExpired then svc.fetchCurrentUser else none) ∧
    (initializeSession svc s).1.organization =
      (if (svc.hasToken && ! svc.tokenExpired) && svc.fetchCurrentUser.isSome
       then svc.storedOrganization else none) ∧
    (initializeSession svc s).1.persistedToken =
      (if (svc.hasToken && ! svc.tokenExpired) && svc.fetchCurrentUser.isSome
       then s.persistedToken else none) ∧
    (initializeSession svc s).1.isLoading = false ∧
    (initializeSession svc s).1.cache = s.cache := by
  unfold initializeSession clearedSession
  cases hv : svc.hasToken && ! svc.tokenExpired <;>
    cases hf : svc.fetchCurrentUser <;> simp [hv, hf]

/-- C3 counterexample: logout leaves the keyed entity cache untouched — a
fresh organization-scoped content entry survives logout, so not all
cached-entity state is cleared. -/
theorem logout_cache_survives_cex :
    (logout true
        (stateWithCache [ { key := QueryKeys.contentList "o1", fresh := true } ])).cache =
      [ { key := QueryKeys.contentList "o1", fresh := true } ] := by
  rfl

/-- C3 (amended): logout unconditionally clears every client-held session
field (user, organization, authenticated flag, loading, error, persisted
credentials) and behaves identically whether the best-effort server call
succeeds or fails, but it does not clear the keyed entity cache. -/
theorem logout_spec (ok : Bool) (s : ClientState) :
    (logout ok s).user = none ∧
    (logout ok s).organization = none ∧
    (logout ok s).isAuthenticated = false ∧
    (logout ok s).isLoading = false ∧
    (logout ok s).error = none ∧
    (logout ok s).persistedToken = none ∧
    (logout ok s).persistedOrganization = none ∧
    (logout ok s).cache = s.cache ∧
    logout ok s = logout (! ok) s := by
  refine ⟨rfl, rfl, rfl, rfl, rfl, rfl, rfl, rfl, rfl⟩

/-- C4 counterexample: a cached content detail entry — which is neither the
content list key nor the usage-stats key — is also marked stale by the
generate-content success handler, because invalidation matches every key
extending the content list key. -/
theorem generateContent_frame_cex :
    QueryKeys.contentDetail "o1" "c1" ≠ QueryKeys.contentList "o1" ∧
    QueryKeys.contentDetail "o1" "c1" ≠ QueryKeys.organizationUsage "o1" ∧
    generateContentOnSuccess "o1"
        [ { key := QueryKeys.contentDetail "o1" "c1", fresh := true } ] =
      [ { key := QueryKeys.contentDetail "o1" "c1", fresh := false } ] := by
  refine ⟨by decide, by decide, by rfl⟩

/-- C4 (amended): on generate-content success exactly the entries whose
keys extend the organization's content list key or its usage-stats key are
marked stale — this includes content detail and iterations entries of that
organization — and every entry outside those two key families is left
unchanged. -/
theorem generateContent_invalidation_spec (organizationId : String) (c : Cache) :
    generateContentOnSuccess organizationId c =
      c.map (fun e =>
        if keyMatches (QueryKeys.contentList organizationId) e.key ||
           keyMatches (QueryKeys.organizationUsage organizationId) e.key then
          { e with fresh := false } else e) ∧
    (∀ id : String,
       keyMatches (QueryKeys.contentList organizationId)
         (QueryKeys.contentDetail organizationId id) = true ∧
       keyMatches (QueryKeys.contentList organizationId)
         (QueryKeys.contentIterations organizationId id) = true) := by
  constructor
  · exact invalidateQueries_invalidateQueries _ _ c
  · intro id
    constructor <;>
      simp [keyMatches, QueryKeys.contentList, QueryKeys.contentDetail,
        QueryKeys.contentIterations]

/-- C5 counterexample: after a successful style deletion the style detail
entry is removed outright — no cache entry for the detail key remains to
be marked stale, contrary to the claim that the detail entry is
invalidated by all three style mutations. -/
theorem deleteStyle_removes_detail_cex :
    deleteStyleOnSuccess "o1" "s1"
        [ { key := QueryKeys.styleDetail "o1" "s1", fresh := true } ] = [] ∧
    lookup (deleteStyleOnSuccess "o1" "s1"
        [ { key := QueryKeys.styleDetail "o1" "s1", fresh := true } ])
      (QueryKeys.styleDetail "o1" "s1") = none := by
  refine ⟨by rfl, by rfl⟩

/-- C5 (amended): on success, create invalidates the style list key family
(which, the detail key extending the list key, also marks any cached
detail entries stale); update invalidates both the list family and the
detail family; delete invalidates the list family and removes the detail
entry outright rather than marking it stale. -/
theorem styleMutation_invalidation_spec (organizationId styleId : String) (c : Cache) :
    createStyleOnSuccess organizationId c =
      c.map (fun e =>
        if keyMatches (QueryKeys.styleList organizationId) e.key then
          { e with fresh := false } else e) ∧
    updateStyleOnSuccess organizationId styleId c =
      c.map (fun e =>
        if keyMatches (QueryKeys.styleList organizationId) e.key ||
           keyMatches (QueryKeys.styleDetail organizationId styleId) e.key then
          { e with fresh := false } else e) ∧
    deleteStyleOnSuccess organizationId styleId c =
      (c.filter (fun e =>
          ! keyMatches (QueryKeys.styleDetail organizationId styleId) e.key)).map
        (fun e =>
          if keyMatches (QueryKeys.styleList organizationId) e.key then
            { e with fresh := false } else e) ∧
    keyMatches (QueryKeys.styleList organizationId)
      (QueryKeys.styleDetail organizationId styleId) = true := by
  refine ⟨rfl, ?_, ?_, ?_⟩
  · exact invalidateQueries_invalidateQueries _ _ c
  · exact removeQueries_invalidateQueries _ _ c
  · simp [keyMatches, QueryKeys.styleList, QueryKeys.styleDetail]

/-- C6: a failed login leaves the prior session (user, organization,
authenticated flag, persisted token) unchanged and surfaces the error;
only a successful login replaces the stored user, organization and token. -/
theorem login_spec :
    (∀ (msg : String) (s : ClientState),
        (login (Except.error msg) s).user = s.user ∧
        (login (Except.error msg) s).organization = s.organization ∧
        (login (Except.error msg) s).isAuthenticated = s.isAuthenticated ∧
        (login (Except.error msg) s).persistedToken = s.persistedToken ∧
        (login (Except.error msg) s).error = some msg ∧
        (login (Except.error msg) s).cache = s.cache) ∧
    (∀ (r : LoginResponse) (s : ClientState),
        (login (Except.ok r) s).user = some r.user ∧
        (login (Except.ok r) s).organization = some r.organization ∧
        (login (Except.ok r) s).isAuthenticated = true ∧
        (login (Except.ok r) s).persistedToken = some r.token ∧
        (login (Except.ok r) s).error = none) := by
  constructor
  · intro msg s
    exact ⟨rfl, rfl, rfl, rfl, rfl, rfl⟩
  · intro r s
    exact ⟨rfl, rfl, rfl, rfl, rfl⟩

/-- C7: the retry policy of the query-client configuration makes at most 3
attempts for reads and at most 2 for mutations, for every sequence of
attempt outcomes, and neither callback ever allows a retry of a 4xx-class
response. -/
theorem retryPolicy_spec :
    (∀ outcomes : List AttemptOutcome, totalAttempts queryRetry outcomes ≤ 3) ∧
    (∀ outcomes : List AttemptOutcome, totalAttempts mutationRetry outcomes ≤ 2) ∧
    (∀ (fc : Nat) (st : Option Nat), is4xx st = true →
        queryRetry fc st = false ∧ mutationRetry fc st = false) := by
  refine ⟨?_, ?_, ?_⟩
  · intro outcomes
    have hb : ∀ fc st, queryRetry fc st = true → fc < 3 := by
      intro fc st h
      cases h4 : is4xx st <;> simp [queryRetry, h4] at h
      · exact h
    have hle := attemptsMade_le hb outcomes 0 (by omega)
    simpa [totalAttempts] using hle
  · intro outcomes
    have hb : ∀ fc st, mutationRetry fc st = true → fc < 2 := by
      intro fc st h
      cases h4 : is4xx st <;> simp [mutationRetry, h4] at h
      · exact h
    have hle := attemptsMade_le hb outcomes 0 (by omega)
    simpa [totalAttempts] using hle
  · intro fc st h4
    constructor <;> simp [queryRetry, mutationRetry, h4]

/-- C7 witness: the never-retry-4xx part of retryPolicy_spec applied to a
404 response at failure count 0. -/
theorem retryPolicy_spec_witness :
    is4xx (some 404) = true ∧
    queryRetry 0 (some 404) = false ∧ mutationRetry 0 (some 404) = false :=
  ⟨by decide,
    (retryPolicy_spec.2.2 0 (some 404) (by decide)).1,
    (retryPolicy_spec.2.2 0 (some 404) (by decide)).2⟩

/-- C8: a generation submission whose brief is shorter than the schema's
minimum useful length (10 characters, which covers the empty brief) or
whose style selection is empty fails local validation and issues zero
network requests. -/
theorem generation_validation_blocks_network (d : ContentGenerationFormData)
    (h : d.brief.length < 10 ∨ d.style_profile_id = "") :
    submitGeneration d = none := by
  unfold submitGeneration contentGenerationValid
  rcases h with h | h
  · have hb : decide (10 ≤ d.brief.length) = false := by
      simp only [decide_eq_false_iff_not]
      omega
    simp [hb]
  · simp [h]

/-- C8 witness: the empty form (empty brief, no style selected) is rejected
with no network call. -/
theorem generation_validation_blocks_network_witness :
    submitGeneration
      { brief := ""
        style_profile_id := ""
        max_tokens := none
        temperature := none
        additional_instructions := none } = none :=
  generation_validation_blocks_network _ (Or.inl (by decide))

/-- C9: for both list queries, a field appears in the constructed query
parameters exactly when it is defined (present with a value) and its
stringified value is non-empty; undefined and empty fields are omitted. -/
theorem searchParams_spec :
    (∀ (p : StyleSearchParams) (k v : String),
        (k, v) ∈ buildQueryParams (styleSearchEntries p) ↔
          ((k, some v) ∈ styleSearchEntries p ∧ v ≠ "")) ∧
    (∀ (p : ContentSearchParams) (k v : String),
        (k, v) ∈ buildQueryParams (contentSearchEntries p) ↔
          ((k, some v) ∈ contentSearchEntries p ∧ v ≠ "")) :=
  ⟨fun p k v => mem_buildQueryParams (styleSearchEntries p) k v,
   fun p k v => mem_buildQueryParams (contentSearchEntries p) k v⟩

/-- C10 counterexample: the organization list key carries no organization
id either, so the user-profile key is not the only such key in the
factory. -/
theorem organizationList_no_orgId_cex :
    keyCarriesOrgId QueryKeys.organizationList = false ∧
    QueryKeys.organizationList ≠ QueryKeys.userProfile := by
  refine ⟨by rfl, by decide⟩

/-- C10 (amended): in the key factory every detail, analysis and iterations
key strictly extends its corresponding list key; every style- and
content-related key (and the organization detail, members and usage keys)
is scoped to its organization id; every factory key other than the
user-profile key and the organization list key carries an organization id,
and those two do not — so the keys carrying no organization id are exactly
the user-profile key and the organization list key. -/
theorem queryKeys_factory_spec (orgId id : String) :
    strictlyExtends (QueryKeys.styleDetail orgId id) (QueryKeys.styleList orgId) = true ∧
    strictlyExtends (QueryKeys.styleAnalysis orgId id) (QueryKeys.styleDetail orgId id) = true ∧
    strictlyExtends (QueryKeys.styleAnalysis orgId id) (QueryKeys.styleList orgId) = true ∧
    strictlyExtends (QueryKeys.contentDetail orgId id) (QueryKeys.contentList orgId) = true ∧
    strictlyExtends (QueryKeys.contentIterations orgId id) (QueryKeys.contentDetail orgId id) = true ∧
    strictlyExtends (QueryKeys.contentIterations orgId id) (QueryKeys.contentList orgId) = true ∧
    strictlyExtends (QueryKeys.organizationDetail orgId) QueryKeys.organizationList = true ∧
    keyScopedTo (QueryKeys.styleList orgId) orgId = true ∧
    keyScopedTo (QueryKeys.styleDetail orgId id) orgId = true ∧
    keyScopedTo (QueryKeys.styleAnalysis orgId id) orgId = true ∧
    keyScopedTo (QueryKeys.contentList orgId) orgId = true ∧
    keyScopedTo (QueryKeys.contentDetail orgId id) orgId = true ∧
    keyScopedTo (QueryKeys.contentIterations orgId id) orgId = true ∧
    keyScopedTo (QueryKeys.organizationDetail orgId) orgId = true ∧
    keyScopedTo (QueryKeys.organizationMembers orgId) orgId = true ∧
    keyScopedTo (QueryKeys.organizationUsage orgId) orgId = true ∧
    keyCarriesOrgId (QueryKeys.organizationDetail orgId) = true ∧
    keyCarriesOrgId (QueryKeys.organizationMembers orgId) = true ∧
    keyCarriesOrgId (QueryKeys.organizationUsage orgId) = true ∧
    keyCarriesOrgId (QueryKeys.styleList orgId) = true ∧
    keyCarriesOrgId (QueryKeys.styleDetail orgId id) = true ∧
    keyCarriesOrgId (QueryKeys.styleAnalysis orgId id) = true ∧
    keyCarriesOrgId (QueryKeys.contentList orgId) = true ∧
    keyCarriesOrgId (QueryKeys.contentDetail orgId id) = true ∧
    keyCarriesOrgId (QueryKeys.contentIterations orgId id) = true ∧
    keyCarriesOrgId QueryKeys.userProfile = false ∧
    keyCarriesOrgId QueryKeys.organizationList = false := by
  simp [strictlyExtends, keyMatches, keyScopedTo, keyCarriesOrgId,
    QueryKeys.styleList, QueryKeys.styleDetail, QueryKeys.styleAnalysis,
    QueryKeys.contentList, QueryKeys.contentDetail, QueryKeys.contentIterations,
    QueryKeys.organizationList, QueryKeys.organizationDetail,
    QueryKeys.organizationMembers, QueryKeys.organizationUsage,
    QueryKeys.userProfile]

end AiWriter
